import Mathlib

/-!
Verification of the route table, module wiring and page structure of the
angular-memory-leak-problem demo application, embedded shallowly from
`src/app/app-routing.module.ts`, `src/app/app.module.ts` and the README.
-/

/-- The Angular components that appear in the application:
`AppComponent`, `ChildElementComponent` and the three page components,
as imported and declared in `app.module.ts`. -/
inductive Component where
  | AppComponent
  | ChildElementComponent
  | PageOneComponent
  | PageTwoComponent
  | PageThreeComponent
deriving DecidableEq, Repr

/-- A route entry of the `Routes` array: the source objects have exactly a
`path` string and a `component` reference, nothing else (no guards, no
parameters, no validation fields). -/
structure Route where
  path : String
  component : Component
deriving DecidableEq, Repr

/-- The `appRoutes` constant of `app-routing.module.ts`: three literal
entries, in source order. -/
def appRoutes : List Route :=
  [ { path := "page-one", component := Component.PageOneComponent }
  , { path := "page-two", component := Component.PageTwoComponent }
  , { path := "page-three", component := Component.PageThreeComponent } ]

/-- Route resolution over a route table: first entry whose literal `path`
equals the requested path wins (Angular first-match semantics over the
static table); an unmatched path yields no component. -/
def resolve (routes : List Route) (p : String) : Option Component :=
  (routes.find? (fun r => r.path == p)).map Route.component

/-- The router's observable state: the static route table it was configured
with by `RouterModule.forRoot(appRoutes)`, and the page component currently
rendered in the outlet (`none` before any successful navigation). -/
structure RouterState where
  routes : List Route
  active : Option Component
deriving DecidableEq, Repr

/-- Modelled from the spec: the framework's navigation step (the router and
outlet sources are external to the repository). Per the spec's control flow,
a navigation "swaps the active page component": the table is consulted and
the resolved component (or nothing, on an unmatched path) replaces the
previously rendered view; the table itself is not touched. -/
def navigate (s : RouterState) (p : String) : RouterState :=
  { s with active := resolve s.routes p }

/-- A sequence of navigations, performed left to right. -/
def navigateSeq (s : RouterState) : List String → RouterState
  | [] => s
  | p :: ps => navigateSeq (navigate s p) ps

/-- The page root elements attached to the live tree: exactly the active
view's root, since the outlet renders one page at a time. -/
def attachedPageRoots (s : RouterState) : List Component :=
  s.active.toList

/-- The five-transition scenario of the spec's end-to-end test. -/
def leakScenario : List String :=
  ["page-three", "page-one", "page-three", "page-two", "page-three"]

theorem navigate_routes (s : RouterState) (p : String) :
    (navigate s p).routes = s.routes := rfl

theorem navigateSeq_routes (s : RouterState) (ps : List String) :
    (navigateSeq s ps).routes = s.routes := by
  induction ps generalizing s with
  | nil => rfl
  | cons p ps ih => simpa [navigateSeq, navigate] using ih (navigate s p)

/-- C1: each of the three defined paths resolves to exactly its page
component and no other: `page-one` to `PageOneComponent`, `page-two` to
`PageTwoComponent`, `page-three` to `PageThreeComponent`. -/
theorem defined_paths_resolve_to_their_components :
    resolve appRoutes "page-one" = some Component.PageOneComponent ∧
    resolve appRoutes "page-two" = some Component.PageTwoComponent ∧
    resolve appRoutes "page-three" = some Component.PageThreeComponent := by
  decide

/-- C3: route resolution is idempotent over repeated navigation: after any
sequence of navigations from a state configured with `appRoutes`, the route
table is still `appRoutes`, and navigating to any path yields the component
`resolve appRoutes` gives for it, independent of the history — so the same
path yields the same component type every time. -/
theorem navigation_idempotent (s : RouterState) (ps : List String) (p : String)
    (h : s.routes = appRoutes) :
    (navigateSeq s ps).routes = appRoutes ∧
    (navigate (navigateSeq s ps) p).active = resolve appRoutes p := by
  have hr : (navigateSeq s ps).routes = appRoutes := by
    rw [navigateSeq_routes, h]
  exact ⟨hr, by simp [navigate, hr]⟩

/-- Witness for C3: navigating to `page-one` twice from the initial state
yields `PageOneComponent` the second time as well, and the table is intact. -/
theorem navigation_idempotent_witness :
    (navigateSeq ⟨appRoutes, none⟩ ["page-one"]).routes = appRoutes ∧
    (navigate (navigateSeq ⟨appRoutes, none⟩ ["page-one"]) "page-one").active =
      resolve appRoutes "page-one" :=
  navigation_idempotent ⟨appRoutes, none⟩ ["page-one"] "page-one" rfl

/-- C4: after the five navigations `page-three, page-one, page-three,
page-two, page-three` from any state configured with `appRoutes`, exactly
`PageThreeComponent` is the active view and its root is the only page root
attached to the live tree. -/
theorem leak_scenario_final_view (s : RouterState) (h : s.routes = appRoutes) :
    (navigateSeq s leakScenario).active = some Component.PageThreeComponent ∧
    attachedPageRoots (navigateSeq s leakScenario) = [Component.PageThreeComponent] := by
  obtain ⟨routes, active⟩ := s
  cases h
  constructor <;> rfl

/-- Witness for C4: the scenario run from the fresh initial state. -/
theorem leak_scenario_final_view_witness :
    (navigateSeq ⟨appRoutes, none⟩ leakScenario).active = some Component.PageThreeComponent ∧
    attachedPageRoots (navigateSeq ⟨appRoutes, none⟩ leakScenario) =
      [Component.PageThreeComponent] :=
  leak_scenario_final_view ⟨appRoutes, none⟩ rfl

/-- C5: the route table is the static list of (path, component) pairs fixed
at module load, and no operation of the program changes it: a single
navigation and any sequence of navigations leave every entry intact. -/
theorem route_table_immutable :
    appRoutes =
      [ { path := "page-one", component := Component.PageOneComponent }
      , { path := "page-two", component := Component.PageTwoComponent }
      , { path := "page-three", component := Component.PageThreeComponent } ] ∧
    (∀ (s : RouterState) (p : String), (navigate s p).routes = s.routes) ∧
    (∀ (s : RouterState) (ps : List String), (navigateSeq s ps).routes = s.routes) :=
  ⟨rfl, fun _ _ => rfl, navigateSeq_routes⟩

/-- C6: route lookup has no error conditions: any path other than the three
defined ones resolves to no component at all (nothing is rendered, nothing
is raised), and the route entries carry nothing but a literal path and a
component — no validation, parameters or guards exist in the table. -/
theorem unmatched_path_resolves_to_none (p : String)
    (h₁ : p ≠ "page-one") (h₂ : p ≠ "page-two") (h₃ : p ≠ "page-three") :
    resolve appRoutes p = none := by
  have hfind : appRoutes.find? (fun r => r.path == p) = none := by
    rw [List.find?_eq_none]
    intro r hr
    simp only [appRoutes, List.mem_cons, List.mem_singleton] at hr
    rcases hr with rfl | rfl | rfl | h
    · simpa using fun contra => h₁ contra.symm
    · simpa using fun contra => h₂ contra.symm
    · simpa using fun contra => h₃ contra.symm
    · cases h
  simp [resolve, hfind]

/-- Witness for C6: the undefined path `nope` resolves to nothing. -/
theorem unmatched_path_resolves_to_none_witness :
    resolve appRoutes "nope" = none :=
  unmatched_path_resolves_to_none "nope" (by decide) (by decide) (by decide)

/-- C9: the three path strings are pairwise distinct, so the table maps no
path string to two different components and resolution is a well-defined
function of the path. -/
theorem route_paths_pairwise_distinct :
    (appRoutes.map Route.path).Nodup ∧
    appRoutes.Pairwise (fun r₁ r₂ => r₁.path ≠ r₂.path) := by
  decide

/-- The Angular modules that appear in `app.module.ts`'s `imports` array:
the browser platform module, the animations module, the forms module and
the application's own routing module (which wraps and re-exports
`RouterModule.forRoot(appRoutes)`). -/
inductive NgImportedModule where
  | BrowserModule
  | BrowserAnimationsModule
  | FormsModule
  | AppRoutingModule
deriving DecidableEq, Repr

/-- The shape of an `@NgModule` metadata object as used by `app.module.ts`. -/
structure NgModuleDecl where
  declarations : List Component
  imports : List NgImportedModule
  providers : List String
  bootstrap : List Component
deriving DecidableEq, Repr

/-- The `AppModule` declaration of `app.module.ts`, fields in source order. -/
def AppModule : NgModuleDecl :=
  { declarations :=
      [ Component.AppComponent
      , Component.ChildElementComponent
      , Component.PageOneComponent
      , Component.PageTwoComponent
      , Component.PageThreeComponent ]
  , imports :=
      [ NgImportedModule.BrowserModule
      , NgImportedModule.BrowserAnimationsModule
      , NgImportedModule.FormsModule
      , NgImportedModule.AppRoutingModule ]
  , providers := []
  , bootstrap := [Component.AppComponent] }

/-- The components reachable through the route table. -/
def routedComponents : List Component :=
  appRoutes.map Route.component

/-- C7 counterexample: it is false that the bootstrapped application module
imports exactly the routing, forms and animations framework modules —
`BrowserModule` is a fourth import, distinct from all three. -/
theorem app_module_imports_not_exactly_three :
    ¬ (∀ m ∈ AppModule.imports,
        m = NgImportedModule.AppRoutingModule ∨
        m = NgImportedModule.FormsModule ∨
        m = NgImportedModule.BrowserAnimationsModule) := by
  decide

/-- C7 amended: the bootstrapped application module imports each of the
routing, forms and animations framework modules, and its `imports` array is
exactly those three together with the browser platform module. -/
theorem app_module_imports_routing_forms_animations :
    NgImportedModule.AppRoutingModule ∈ AppModule.imports ∧
    NgImportedModule.FormsModule ∈ AppModule.imports ∧
    NgImportedModule.BrowserAnimationsModule ∈ AppModule.imports ∧
    AppModule.imports =
      [ NgImportedModule.BrowserModule
      , NgImportedModule.BrowserAnimationsModule
      , NgImportedModule.FormsModule
      , NgImportedModule.AppRoutingModule ] := by
  decide

/-- C10: every component referenced by a route entry is declared in the
application module's `declarations` list, `AppComponent` is the sole
bootstrap component, and `AppComponent` is not itself routed. -/
theorem routed_components_declared_and_bootstrap :
    (routedComponents.all (fun c => AppModule.declarations.contains c)) = true ∧
    AppModule.bootstrap = [Component.AppComponent] ∧
    Component.AppComponent ∉ routedComponents := by
  decide

/-- A child element occurrence in a page template, recording whether that
occurrence uses shadow-DOM view encapsulation. -/
structure ChildInstance where
  shadowEncapsulated : Bool
deriving DecidableEq, Repr

/-- The observable structure of a page component: its declared inputs and
outputs, its internal state fields, and the child element occurrences of
its template. -/
structure PageStructure where
  inputs : List String
  outputs : List String
  stateFields : List String
  templateChildren : List ChildInstance
deriving DecidableEq, Repr

/-- Modelled from the spec: `page-one.component.ts` and its template are not
in the repository snapshot. Per spec §4.2 the page has no inputs, no outputs
and no internal state, and per the README ("Demo to recreate") it includes
one child element that uses ShadowDom view encapsulation. -/
def pageOneStructure : PageStructure :=
  { inputs := [], outputs := [], stateFields := []
  , templateChildren := [{ shadowEncapsulated := true }] }

/-- Modelled from the spec: `page-two.component.ts` and its template are not
in the repository snapshot. Per spec §4.2 and the README it likewise
includes one ShadowDom-encapsulated child element and nothing else. -/
def pageTwoStructure : PageStructure :=
  { inputs := [], outputs := [], stateFields := []
  , templateChildren := [{ shadowEncapsulated := true }] }

/-- Modelled from the spec: `page-three.component.ts` and its template are
not in the repository snapshot. Per spec §4.2 and the README it includes one
plain (non-ShadowDom) child element and nothing else. -/
def pageThreeStructure : PageStructure :=
  { inputs := [], outputs := [], stateFields := []
  , templateChildren := [{ shadowEncapsulated := false }] }

/-- The modelled structure of each routed page component. -/
def pageStructureOf : Component → Option PageStructure
  | Component.PageOneComponent => some pageOneStructure
  | Component.PageTwoComponent => some pageTwoStructure
  | Component.PageThreeComponent => some pageThreeStructure
  | _ => none

/-- How many shadow-encapsulated child element instances a page mounts when
rendered: one per ShadowDom child occurrence in its template. -/
def shadowChildCount (pc : PageStructure) : Nat :=
  pc.templateChildren.countP (fun c => c.shadowEncapsulated)

/-- C2: Page One and Page Two each mount exactly one shadow-encapsulated
child element instance when rendered; Page Three mounts zero. -/
theorem shadow_child_mount_counts :
    shadowChildCount pageOneStructure = 1 ∧
    shadowChildCount pageTwoStructure = 1 ∧
    shadowChildCount pageThreeStructure = 0 := by
  decide

/-- C8: every page component is stateless and interface-free: each of the
three has no inputs, no outputs and no internal state fields, and its
template consists of exactly one child element variant. -/
theorem page_components_stateless :
    (pageOneStructure.inputs = [] ∧ pageOneStructure.outputs = [] ∧
      pageOneStructure.stateFields = [] ∧
      pageOneStructure.templateChildren.length = 1) ∧
    (pageTwoStructure.inputs = [] ∧ pageTwoStructure.outputs = [] ∧
      pageTwoStructure.stateFields = [] ∧
      pageTwoStructure.templateChildren.length = 1) ∧
    (pageThreeStructure.inputs = [] ∧ pageThreeStructure.outputs = [] ∧
      pageThreeStructure.stateFields = [] ∧
      pageThreeStructure.templateChildren.length = 1) := by
  decide
